import Mathlib

/-!
Verification development for the storypointpoker frontend client
(room.component.ts and core/services/room.service.ts).

The embedding keeps the source shape: JavaScript numbers that only ever
hold exact small fractions (percentages `count / total * 100`) are
modelled as rationals, vote values (`number | string`) as an explicit sum
type, the mutable component and service fields as record states, and the
socket handlers as step functions on those states.  SVG path strings are
modelled by the data they are rendered from (center, radius, angular
offsets in percent of a turn, large-arc flag): the rendered string is a
fixed function of these data, so equality and shape of paths are settled
on this representation.
-/

namespace StoryPoker

open List

/-- Vote value as in the TypeScript union `number | string`.  Story points
are the numbers 1, 3, 5, 8, 13; the special options are the strings
"info" and "split".  Strict equality `===` on this union is equality of
the sum type. -/
inductive EstVal where
  | num (n : Int)
  | str (s : String)
deriving DecidableEq, Repr

/-- JavaScript `toString` on a vote value (room.component.ts line 243 and
the counting loops). -/
def estValToString : EstVal → String
  | .num n => toString n
  | .str s => s

/-- JavaScript truthiness of the optional `estimate` field: `undefined`,
the number 0 and the empty string are falsy. -/
def estTruthy : Option EstVal → Bool
  | none => false
  | some (.num n) => n != 0
  | some (.str s) => s != ""

/-- Participant record, the `User` interface shared by
room.component.ts and room.service.ts.  The optional `isAdmin` is
modelled as a plain Bool since only its truthiness is read. -/
structure User where
  id : String
  name : String
  estimate : Option EstVal
  hasVoted : Bool
  isAdmin : Bool
deriving DecidableEq, Repr

/-- Work item, the `Story` interface of room.service.ts. -/
structure Story where
  title : String
  description : String
deriving DecidableEq, Repr

/-- Room snapshot, the `Room` interface of room.service.ts.  Dates are
opaque timestamps. -/
structure Room where
  id : String
  name : String
  userCount : Nat
  adminName : String
  story : Story
  votingRevealed : Bool
  estimationStarted : Bool
  createdAt : Nat
  lastActivity : Nat
deriving DecidableEq, Repr

/-- Aggregate vote summary, the `VotingResults` interface of
room.service.ts.  The `estimates` dictionary is an insertion-ordered
association list. -/
structure VotingResults where
  totalVotes : Nat
  estimates : List (String × Nat)
  averageEstimate : Option ℚ
  mostCommonEstimate : Option String
  revealed : Option Bool
deriving DecidableEq, Repr

/-! ## Estimate counting (the `estimateCounts` object) -/

/-- One step of `estimateCounts[estimate] = (estimateCounts[estimate] || 0) + 1`
on an insertion-ordered association list: bump an existing key in place,
or append a fresh key with count 1. -/
def insertCount : List (String × Nat) → String → List (String × Nat)
  | [], k => [(k, 1)]
  | (k', c) :: rest, k =>
      if k' = k then (k', c + 1) :: rest else (k', c) :: insertCount rest k

/-- The `forEach` loop that builds `estimateCounts` from the list of
estimate strings. -/
def countFold (keys : List String) : List (String × Nat) :=
  keys.foldl insertCount []

/-- Dictionary read with default 0, as in `estimateCounts[k] || 0`. -/
def countOf : List (String × Nat) → String → Nat
  | [], _ => 0
  | (k', c) :: rest, k => if k' = k then c else countOf rest k

/-- Total of the stored counts. -/
def sumCounts (m : List (String × Nat)) : Nat :=
  (m.map Prod.snd).sum

/-! ## `Object.entries` ordering

ECMAScript OrdinaryOwnPropertyKeys: own string keys that are array
indices (the canonical decimal form of an integer below 2^32 - 1) come
first in ascending numeric order, then the remaining string keys in
insertion order.  Estimate labels such as "5" or "13" are array indices;
"info" and "split" are not. -/

/-- Numeric value of a list of decimal digit characters. -/
def digitsToNat (cs : List Char) : Nat :=
  cs.foldl (fun acc c => acc * 10 + (c.toNat - 48)) 0

/-- Decide whether a string is a JavaScript array-index key and return
its numeric value: nonempty, all ASCII digits, no leading zero except
the string "0" itself, and value below 2^32 - 1. -/
def isArrayIndexKey (s : String) : Option Nat :=
  match s.data with
  | [] => none
  | c :: cs =>
      if (c :: cs).all Char.isDigit && (c != '0' || cs.isEmpty) then
        if digitsToNat (c :: cs) < 4294967295 then some (digitsToNat (c :: cs))
        else none
      else none

/-- Sort key used for array-index entries (0 for the non-index entries,
which are never compared with it). -/
def arrayIndexVal (p : String × Nat) : Nat :=
  (isArrayIndexKey p.1).getD 0

/-- Enumeration order of `Object.entries` on the counts object:
array-index keys ascending, then the other keys in insertion order. -/
def objectEntries (m : List (String × Nat)) : List (String × Nat) :=
  (List.insertionSort (fun a b => arrayIndexVal a ≤ arrayIndexVal b)
      (m.filter fun p => (isArrayIndexKey p.1).isSome))
    ++ m.filter (fun p => !(isArrayIndexKey p.1).isSome)

/-! ## Chart geometry -/

/-- SVG wedge path, by the data it is rendered from.  An `arc` stands for
the string `M cx cy L x1 y1 A r r 0 largeArc 1 x2 y2 Z` where the
endpoints are cos and sin of the angles
`(startOffset/100) * 2pi - pi/2` and `(endOffset/100) * 2pi - pi/2`
scaled by the radius from the center; a `fullCircle` stands for the
degenerate-arc avoiding string
`M cx (cy - r) A r r 0 1 1 (cx - 0.1) (cy - r) Z`. -/
inductive SegPath where
  | fullCircle (cx cy r : ℚ)
  | arc (cx cy r startOffset endOffset : ℚ) (largeArc : Nat)
deriving DecidableEq, Repr

/-- Derived rendering record, the `ChartSegment` interface of
room.component.ts. -/
structure ChartSegment where
  label : String
  value : Nat
  percentage : ℚ
  color : String
  offset : ℚ
  pathData : Option SegPath
deriving DecidableEq, Repr

/-- Chart radius configured on the component. -/
def chartRadius : ℚ := 160

/-- Chart center x coordinate configured on the component. -/
def chartCenterX : ℚ := 175

/-- Chart center y coordinate configured on the component. -/
def chartCenterY : ℚ := 175

/-- The fixed cyclic color palette of `generateChartData`. -/
def colors : List String :=
  ["#4CAF50", "#2196F3", "#FF9800", "#9C27B0", "#F44336",
   "#00BCD4", "#795548", "#607D8B", "#FFEB3B", "#E91E63"]

/-- Display label for an estimate key (`getEstimateLabel`). -/
def getEstimateLabel (estimate : String) : String :=
  if estimate = "info" then "❓ Need more info"
  else if estimate = "split" then "✂️ Story too big"
  else estimate

/-- Filter predicate of `generateChartData`:
`!user.isAdmin && user.hasVoted && user.estimate`. -/
def isVotingUser (u : User) : Bool :=
  !u.isAdmin && u.hasVoted && estTruthy u.estimate

/-- The `votingUsers` list of `generateChartData`. -/
def votingUsers (users : List User) : List User :=
  users.filter isVotingUser

/-- Estimate key of a voting user, `user.estimate!.toString()`. -/
def userEstKey (u : User) : String :=
  match u.estimate with
  | some v => estValToString v
  | none => ""

/-- The stateful `map` body of `generateChartData`: walk the entries
accumulating `cumulativePercentage` and `colorIndex`, emitting one
segment per entry with its precomputed path. -/
def mkSegments (total : ℚ) : List (String × Nat) → ℚ → Nat → List ChartSegment
  | [], _, _ => []
  | (est, count) :: rest, cum, ci =>
      let percentage : ℚ := ((count : ℚ) / total) * 100
      { label := getEstimateLabel est
      , value := count
      , percentage := percentage
      , color := colors.getD (ci % colors.length) ""
      , offset := cum
      , pathData := some (
          if (999 : ℚ)/10 ≤ percentage then
            SegPath.fullCircle chartCenterX chartCenterY chartRadius
          else
            SegPath.arc chartCenterX chartCenterY chartRadius cum (cum + percentage)
              (if 50 < percentage then 1 else 0)) }
        :: mkSegments total rest (cum + percentage) (ci + 1)

/-- `generateChartData` of room.component.ts: filter to voting users,
count per estimate key, enumerate the counts object, and lay the wedges
out in that order. -/
def generateChartData (users : List User) : List ChartSegment :=
  mkSegments ((votingUsers users).length : ℚ)
    (objectEntries (countFold ((votingUsers users).map userEstKey))) 0 0

/-- `updateChartData` of room.component.ts: the computed value of
`chartSegments` given the reveal flag and the participant list. -/
def updateChartData (resultsRevealed : Bool) (users : List User) : List ChartSegment :=
  if resultsRevealed then generateChartData users else []

/-- `getSegmentPath` of room.component.ts: recompute the wedge path from
a segment record, always as a plain arc. -/
def getSegmentPath (segment : ChartSegment) : SegPath :=
  SegPath.arc chartCenterX chartCenterY chartRadius
    segment.offset (segment.offset + segment.percentage)
    (if 50 < segment.percentage then 1 else 0)

/-! ## The room service socket handlers (room.service.ts) -/

/-- Payload summary of a votes-revealed event (`data.summary`, typed
`any` in the source, read through optional chaining). -/
structure RevealSummary where
  totalVotes : Nat
  mostCommon : Option String
deriving DecidableEq, Repr

/-- State held by the five subjects of `RoomService`. -/
structure ServiceState where
  users : List User
  room : Option Room
  votingResults : Option VotingResults
  estimationStarted : Bool
  resultsRevealed : Bool
deriving DecidableEq, Repr

/-- Values the five `BehaviorSubject`s are constructed with. -/
def initialServiceState : ServiceState :=
  { users := []
  , room := none
  , votingResults := none
  , estimationStarted := false
  , resultsRevealed := false }

/-- Inbound socket events with their payloads, as registered by the
socket listeners of `RoomService`. -/
inductive InEvent where
  | roomState (room : Room) (users : List User) (results : VotingResults)
  | userJoined (user : User) (room : Room) (users : List User)
  | userLeft (userId : String) (room : Room) (users : List User)
  | userDisconnected (userId : String) (users : List User)
  | voteSubmitted (userId : String) (users : List User) (results : VotingResults)
  | votesRevealed (revealed : Bool) (votes : List User) (summary : Option RevealSummary)
  | votingReset (users : List User) (results : VotingResults)
  | estimationStarted (users : List User) (results : VotingResults)
  | storyUpdated (story : Story) (room : Room)
  | errorEvent (message : String)
deriving DecidableEq, Repr

/-- The `estimates` dictionary built by the votes-revealed handler:
count every vote of a user with `hasVoted` and a truthy estimate (no
admin filter here, unlike the chart). -/
def revealedEstimates (votes : List User) : List (String × Nat) :=
  countFold
    ((votes.filter fun u => u.hasVoted && estTruthy u.estimate).map userEstKey)

/-- The `VotingResults` record the votes-revealed handler publishes. -/
def revealedResults (revealed : Bool) (votes : List User)
    (summary : Option RevealSummary) : VotingResults :=
  { totalVotes := (summary.map RevealSummary.totalVotes).getD 0
  , estimates := revealedEstimates votes
  , averageEstimate := none
  , mostCommonEstimate := summary.bind RevealSummary.mostCommon
  , revealed := some revealed }

/-- One inbound event processed by the socket listeners of
`RoomService`: each handler replaces the state slices it names and
leaves the rest untouched. -/
def serviceStep (s : ServiceState) (e : InEvent) : ServiceState :=
  match e with
  | .roomState room users results =>
      { s with room := some room, users := users, votingResults := some results,
               resultsRevealed := room.votingRevealed }
  | .userJoined _ room users =>
      { s with users := users, room := some room }
  | .userLeft _ room users =>
      { s with users := users, room := some room }
  | .userDisconnected _ users =>
      { s with users := users }
  | .voteSubmitted _ users results =>
      { s with users := users, votingResults := some results }
  | .votesRevealed revealed votes summary =>
      { s with votingResults := some (revealedResults revealed votes summary)
             , users := votes
             , resultsRevealed := revealed }
  | .votingReset users results =>
      { s with users := users, votingResults := some results,
               resultsRevealed := false, estimationStarted := false }
  | .estimationStarted users results =>
      { s with users := users, votingResults := some results,
               estimationStarted := true, resultsRevealed := false }
  | .storyUpdated story _ =>
      (match s.room with
       | some r => { s with room := some { r with story := story } }
       | none => s)
  | .errorEvent _ => s

/-- Service state after a sequence of inbound events from the initial
subject values. -/
def reach (es : List InEvent) : ServiceState :=
  es.foldl serviceStep initialServiceState

/-! ## The room component (room.component.ts) -/

/-- Local UI state of `RoomComponent` that the modelled operations read
or write. -/
structure ComponentState where
  roomId : String
  currentUser : Option User
  users : List User
  selectedEstimate : Option EstVal
  estimationStarted : Bool
  resultsRevealed : Bool
  chartSegments : List ChartSegment
  storySummary : String
  isEditingStory : Bool
  roomClosed : Bool
  room : Option Room
deriving DecidableEq, Repr

/-- Outbound socket emission observable from the component operations. -/
inductive OutMsg where
  | submitVote (roomId userId estimate : String)
deriving DecidableEq, Repr

/-- `selectEstimate` of room.component.ts: returns the new component
state and the emitted socket messages.  No-op unless estimation started
and a current user exists; clicking the selected value clears the vote
and sends the empty string, any other value records it and sends its
string form. -/
def selectEstimate (point : EstVal) (cs : ComponentState) :
    ComponentState × List OutMsg :=
  if !cs.estimationStarted then (cs, [])
  else
    match cs.currentUser with
    | none => (cs, [])
    | some u =>
        if cs.selectedEstimate = some point then
          ({ cs with selectedEstimate := none
                   , currentUser := some { u with estimate := none, hasVoted := false } },
           [OutMsg.submitVote cs.roomId u.id ""])
        else
          ({ cs with selectedEstimate := some point
                   , currentUser := some { u with estimate := some point, hasVoted := true } },
           [OutMsg.submitVote cs.roomId u.id (estValToString point)])

/-- Component-side processing of one votes-revealed socket event: the
service handler pushes to the votingResults, users and resultsRevealed
subjects in that order, and the subscriptions of `setupSubscriptions`
run synchronously on each push.  The results object is always truthy, so
its subscriber always recomputes the chart; the users subscriber
replaces the list and recomputes; the reveal subscriber stores the flag
and, only when it is true, recomputes the chart and clears the local
selected estimate (the confetti side effect carries no state). -/
def onVotesRevealedEvent (revealed : Bool) (votes : List User)
    (_summary : Option RevealSummary) (cs : ComponentState) : ComponentState :=
  let cs1 : ComponentState :=
    { cs with chartSegments := updateChartData cs.resultsRevealed cs.users }
  let cs2 : ComponentState :=
    { cs1 with users := votes
             , chartSegments := updateChartData cs1.resultsRevealed votes }
  let cs3 : ComponentState := { cs2 with resultsRevealed := revealed }
  if revealed then
    { cs3 with chartSegments := updateChartData true cs3.users
             , selectedEstimate := none }
  else cs3

/-- External effects of `closeRoom`. -/
inductive Effect where
  | removeStoredUser (key : String)
  | navigate (path : String)
  | warnDialog (title : String)
deriving DecidableEq, Repr

/-- `closeRoom` of room.component.ts, with the confirmation outcome and
the success of the backend leave-room request as inputs, returning the
observable effects in order.  Both branches of the subscription remove
the persisted identity and navigate home; the error branch additionally
shows a soft warning. -/
def closeRoom (confirmed : Bool) (leaveSucceeds : Bool)
    (cs : ComponentState) : List Effect :=
  if confirmed then
    match cs.currentUser with
    | some _ =>
        if leaveSucceeds then
          [Effect.removeStoredUser ("room_" ++ cs.roomId ++ "_user"),
           Effect.navigate "/"]
        else
          [Effect.removeStoredUser ("room_" ++ cs.roomId ++ "_user"),
           Effect.navigate "/",
           Effect.warnDialog "Warning"]
    | none => []
  else []

/-! ## Counting lemmas -/

theorem sumCounts_insertCount (m : List (String × Nat)) (k : String) :
    sumCounts (insertCount m k) = sumCounts m + 1 := by
  induction m with
  | nil => simp [insertCount, sumCounts]
  | cons p rest ih =>
      obtain ⟨k', c⟩ := p
      by_cases h : k' = k
      · simp [insertCount, h, sumCounts]
        omega
      · simp [insertCount, h, sumCounts] at ih ⊢
        omega

theorem sumCounts_foldl (keys : List String) :
    ∀ m, sumCounts (keys.foldl insertCount m) = sumCounts m + keys.length := by
  induction keys with
  | nil => intro m; simp
  | cons k rest ih =>
      intro m
      rw [List.foldl_cons, ih, sumCounts_insertCount]
      simp
      omega

theorem sumCounts_countFold (keys : List String) :
    sumCounts (countFold keys) = keys.length := by
  rw [countFold, sumCounts_foldl]
  simp [sumCounts]

theorem objectEntries_perm (m : List (String × Nat)) :
    List.Perm (objectEntries m) m := by
  unfold objectEntries
  exact ((List.perm_insertionSort _ _).append_right _).trans
    (List.filter_append_perm _ m)

theorem sumCounts_objectEntries (m : List (String × Nat)) :
    sumCounts (objectEntries m) = sumCounts m :=
  ((objectEntries_perm m).map Prod.snd).sum_eq

/-! ## Segment layout lemmas -/

theorem mkSegments_map_percentage (total : ℚ) :
    ∀ (entries : List (String × Nat)) (cum : ℚ) (ci : Nat),
      (mkSegments total entries cum ci).map ChartSegment.percentage
        = entries.map (fun p => ((p.2 : ℚ) / total) * 100) := by
  intro entries
  induction entries with
  | nil => intro cum ci; simp [mkSegments]
  | cons p rest ih =>
      intro cum ci
      obtain ⟨est, c⟩ := p
      simp [mkSegments, ih]

theorem mkSegments_map_value (total : ℚ) :
    ∀ (entries : List (String × Nat)) (cum : ℚ) (ci : Nat),
      (mkSegments total entries cum ci).map ChartSegment.value
        = entries.map Prod.snd := by
  intro entries
  induction entries with
  | nil => intro cum ci; simp [mkSegments]
  | cons p rest ih =>
      intro cum ci
      obtain ⟨est, c⟩ := p
      simp [mkSegments, ih]

theorem sum_percentages (total : ℚ) (entries : List (String × Nat)) :
    (entries.map (fun p => ((p.2 : ℚ) / total) * 100)).sum
      = ((sumCounts entries : ℚ) / total) * 100 := by
  induction entries with
  | nil => simp [sumCounts]
  | cons p rest ih =>
      have hs : sumCounts (p :: rest) = p.2 + sumCounts rest := by
        simp [sumCounts]
      rw [List.map_cons, List.sum_cons, ih, hs]
      push_cast
      ring

/-- C1: with the reveal flag false the chart is empty; with it true and
at least one non-admin voter with a truthy estimate the wedge
percentages sum to exactly 100. -/
theorem claim_C1 (users : List User) (revealed : Bool) :
    (revealed = false → updateChartData revealed users = []) ∧
    (revealed = true → (∃ u, u ∈ users ∧ isVotingUser u = true) →
      ((generateChartData users).map ChartSegment.percentage).sum = 100) := by
  constructor
  · intro h
    simp [updateChartData, h]
  · intro _ hex
    have hvu : votingUsers users ≠ [] := by
      rcases hex with ⟨u, hu, hP⟩
      intro hnil
      have hmem : u ∈ votingUsers users := List.mem_filter.mpr ⟨hu, hP⟩
      rw [hnil] at hmem
      exact (List.not_mem_nil u) hmem
    have hlen : (votingUsers users).length ≠ 0 := by
      intro h0
      exact hvu (List.length_eq_zero.mp h0)
    have hcast : ((votingUsers users).length : ℚ) ≠ 0 := Nat.cast_ne_zero.mpr hlen
    unfold generateChartData
    rw [mkSegments_map_percentage, sum_percentages, sumCounts_objectEntries,
        sumCounts_countFold, List.length_map]
    rw [div_self hcast]
    norm_num

/-- A non-admin participant who voted 5, used to instantiate
hypothesis-bearing theorems. -/
def exVoter : User :=
  { id := "v1", name := "Bea", estimate := some (EstVal.num 5),
    hasVoted := true, isAdmin := false }

/-- Witness for C1 at a one-voter room. -/
theorem claim_C1_witness :
    updateChartData false [exVoter] = [] ∧
    ((generateChartData [exVoter]).map ChartSegment.percentage).sum = 100 :=
  ⟨(claim_C1 [exVoter] false).1 rfl,
   (claim_C1 [exVoter] true).2 rfl ⟨exVoter, by simp, by decide⟩⟩

/-! ## Path shape lemmas -/

theorem mkSegments_pathData (total : ℚ) :
    ∀ (entries : List (String × Nat)) (cum : ℚ) (ci : Nat) (seg : ChartSegment),
      seg ∈ mkSegments total entries cum ci →
      seg.pathData = some (
        if (999 : ℚ)/10 ≤ seg.percentage then
          SegPath.fullCircle chartCenterX chartCenterY chartRadius
        else
          SegPath.arc chartCenterX chartCenterY chartRadius seg.offset
            (seg.offset + seg.percentage)
            (if 50 < seg.percentage then 1 else 0)) := by
  intro entries
  induction entries with
  | nil =>
      intro cum ci seg h
      simp [mkSegments] at h
  | cons p rest ih =>
      intro cum ci seg h
      obtain ⟨est, c⟩ := p
      rw [mkSegments] at h
      rcases List.mem_cons.mp h with h1 | h2
      · subst h1
        rfl
      · exact ih _ _ _ h2

theorem foldl_insertCount_all_eq (e : String) :
    ∀ (keys : List String) (c : Nat), (∀ k ∈ keys, k = e) →
      keys.foldl insertCount [(e, c)] = [(e, c + keys.length)] := by
  intro keys
  induction keys with
  | nil => intro c _; simp
  | cons k0 rest ih =>
      intro c hall
      have hk0 : k0 = e := hall k0 (by simp)
      rw [List.foldl_cons, hk0]
      have hstep : insertCount [(e, c)] e = [(e, c + 1)] := by
        simp [insertCount]
      rw [hstep, ih (c + 1) (fun k hk => hall k (List.mem_cons_of_mem _ hk))]
      simp
      omega

theorem countFold_all_eq (keys : List String) (e : String)
    (h1 : keys ≠ []) (h2 : ∀ k ∈ keys, k = e) :
    countFold keys = [(e, keys.length)] := by
  match keys, h1 with
  | k0 :: rest, _ =>
      have hk0 : k0 = e := h2 k0 (by simp)
      unfold countFold
      rw [List.foldl_cons]
      have hstep : insertCount [] k0 = [(k0, 1)] := rfl
      rw [hstep, hk0,
          foldl_insertCount_all_eq e rest 1 (fun k hk => h2 k (List.mem_cons_of_mem _ hk))]
      simp
      omega

theorem objectEntries_singleton (p : String × Nat) :
    objectEntries [p] = [p] := by
  unfold objectEntries
  by_cases h : (isArrayIndexKey p.1).isSome
  · simp [List.filter, h, List.insertionSort]
  · simp [List.filter, h]

/-- C7: a wedge with percentage at least 99.9 carries the full-circle
path; any other wedge carries an arc whose large-arc flag is 1 exactly
when its percentage exceeds 50; and when every counted voter cast the
same estimate the chart is exactly one full-circle wedge at 100
percent. -/
theorem claim_C7 :
    (∀ (users : List User) (seg : ChartSegment), seg ∈ generateChartData users →
      ((999 : ℚ)/10 ≤ seg.percentage →
        seg.pathData = some (SegPath.fullCircle chartCenterX chartCenterY chartRadius)) ∧
      (seg.percentage < (999 : ℚ)/10 →
        seg.pathData = some (SegPath.arc chartCenterX chartCenterY chartRadius
          seg.offset (seg.offset + seg.percentage)
          (if 50 < seg.percentage then 1 else 0)))) ∧
    (∀ (users : List User) (e : String), votingUsers users ≠ [] →
      (∀ u ∈ votingUsers users, userEstKey u = e) →
      generateChartData users =
        [{ label := getEstimateLabel e
         , value := (votingUsers users).length
         , percentage := 100
         , color := "#4CAF50"
         , offset := 0
         , pathData := some (SegPath.fullCircle chartCenterX chartCenterY chartRadius) }]) := by
  constructor
  · intro users seg h
    have hp := mkSegments_pathData ((votingUsers users).length : ℚ)
      (objectEntries (countFold ((votingUsers users).map userEstKey))) 0 0 seg h
    constructor
    · intro h99
      rw [hp, if_pos h99]
    · intro hlt
      rw [hp, if_neg (not_le.mpr hlt)]
  · intro users e hne hall
    have hkeys : ∀ k ∈ (votingUsers users).map userEstKey, k = e := by
      intro k hk
      rcases List.mem_map.mp hk with ⟨u, hu, rfl⟩
      exact hall u hu
    have hmapne : (votingUsers users).map userEstKey ≠ [] := by
      simpa using hne
    have hcf : countFold ((votingUsers users).map userEstKey)
        = [(e, (votingUsers users).length)] := by
      rw [countFold_all_eq _ e hmapne hkeys, List.length_map]
    have hlen : (votingUsers users).length ≠ 0 := by
      intro h0
      exact hne (List.length_eq_zero.mp h0)
    have hcast : ((votingUsers users).length : ℚ) ≠ 0 := Nat.cast_ne_zero.mpr hlen
    unfold generateChartData
    rw [hcf, objectEntries_singleton]
    have hpct : (((votingUsers users).length : ℚ) / ((votingUsers users).length : ℚ)) * 100
        = 100 := by
      rw [div_self hcast]; norm_num
    simp only [mkSegments, hpct]
    rw [if_pos (by norm_num : (999 : ℚ)/10 ≤ 100)]
    rfl

/-- C10: on every wedge below the full-circle threshold, the
recomputation in getSegmentPath agrees with the path precomputed by
generateChartData. -/
theorem claim_C10 (users : List User) (seg : ChartSegment)
    (h : seg ∈ generateChartData users) (hlt : seg.percentage < (999 : ℚ)/10) :
    seg.pathData = some (getSegmentPath seg) := by
  have hp := mkSegments_pathData ((votingUsers users).length : ℚ)
    (objectEntries (countFold ((votingUsers users).map userEstKey))) 0 0 seg h
  rw [hp, if_neg (not_le.mpr hlt)]
  rfl

def exVoter8 : User :=
  { id := "v2", name := "Cy", estimate := some (EstVal.num 8),
    hasVoted := true, isAdmin := false }

def exSeg5 : ChartSegment :=
  { label := "5", value := 1, percentage := 50, color := "#4CAF50", offset := 0,
    pathData := some (SegPath.arc chartCenterX chartCenterY chartRadius 0 50 0) }

def exSeg8 : ChartSegment :=
  { label := "8", value := 1, percentage := 50, color := "#2196F3", offset := 50,
    pathData := some (SegPath.arc chartCenterX chartCenterY chartRadius 50 100 0) }

/-- Concrete two-voter chart evaluation shared by several witnesses. -/
theorem generateChartData_two_voters :
    generateChartData [exVoter, exVoter8] = [exSeg5, exSeg8] := by
  have h : objectEntries (countFold ((votingUsers [exVoter, exVoter8]).map userEstKey))
      = [("5", 1), ("8", 1)] := by decide
  have hn : (((votingUsers [exVoter, exVoter8]).length : Nat) : ℚ) = 2 := by
    norm_num [votingUsers, exVoter, exVoter8, isVotingUser, estTruthy]
  unfold generateChartData
  rw [h, hn]
  simp only [mkSegments]
  have l5 : getEstimateLabel "5" = "5" := by decide
  have l8 : getEstimateLabel "8" = "8" := by decide
  norm_num [exSeg5, exSeg8, l5, l8, colors]

/-- Witness for C10 on the 50 percent wedge of a two-voter chart. -/
theorem claim_C10_witness :
    exSeg5 ∈ generateChartData [exVoter, exVoter8] ∧
    exSeg5.percentage < (999 : ℚ)/10 ∧
    exSeg5.pathData = some (getSegmentPath exSeg5) := by
  have hmem : exSeg5 ∈ generateChartData [exVoter, exVoter8] := by
    rw [generateChartData_two_voters]
    exact List.mem_cons_self _ _
  have hlt : exSeg5.percentage < (999 : ℚ)/10 := by
    norm_num [exSeg5]
  exact ⟨hmem, hlt, claim_C10 [exVoter, exVoter8] exSeg5 hmem hlt⟩

/-- The single 100 percent wedge of a one-voter chart. -/
def exFullSeg : ChartSegment :=
  { label := "5", value := 1, percentage := 100, color := "#4CAF50", offset := 0,
    pathData := some (SegPath.fullCircle chartCenterX chartCenterY chartRadius) }

/-- Witness for C7 at a one-voter room where the single estimate takes
the whole circle. -/
theorem claim_C7_witness :
    generateChartData [exVoter] = [exFullSeg] ∧
    (999 : ℚ)/10 ≤ exFullSeg.percentage ∧
    exFullSeg.pathData = some (SegPath.fullCircle chartCenterX chartCenterY chartRadius) := by
  have heq : generateChartData [exVoter] = [exFullSeg] := by
    have h2 := claim_C7.2 [exVoter] "5" (by decide) (by decide)
    rw [h2]
    have l5 : getEstimateLabel "5" = "5" := by decide
    simp [exFullSeg, l5]
    decide
  have hmem : exFullSeg ∈ generateChartData [exVoter] := by
    rw [heq]; exact List.mem_cons_self _ _
  have h99 : (999 : ℚ)/10 ≤ exFullSeg.percentage := by norm_num [exFullSeg]
  exact ⟨heq, h99, (claim_C7.1 [exVoter] exFullSeg hmem).1 h99⟩

/-! ## Per-key count correctness -/

theorem countOf_insertCount (m : List (String × Nat)) (k k' : String) :
    countOf (insertCount m k) k' = countOf m k' + (if k = k' then 1 else 0) := by
  induction m with
  | nil => by_cases h : k = k' <;> simp [insertCount, countOf, h]
  | cons p rest ih =>
      obtain ⟨a, c⟩ := p
      by_cases hak : a = k
      · subst hak
        by_cases hk' : a = k' <;> simp [insertCount, countOf, hk']
      · by_cases hk' : a = k'
        · subst hk'
          have hkk : ¬ (k = a) := fun h => hak h.symm
          simp [insertCount, countOf, hak, hkk]
        · simp [insertCount, countOf, hak, hk', ih]

theorem countOf_foldl (keys : List String) :
    ∀ (m : List (String × Nat)) (k : String),
      countOf (keys.foldl insertCount m) k = countOf m k + keys.count k := by
  induction keys with
  | nil => intro m k; simp
  | cons k0 rest ih =>
      intro m k
      rw [List.foldl_cons, ih, countOf_insertCount]
      by_cases h : k0 = k
      · subst h
        simp [List.count_cons]
        omega
      · have hne : ¬ (k = k0) := fun hh => h hh.symm
        simp [List.count_cons, h, hne]

theorem mkSegments_map_label (total : ℚ) :
    ∀ (entries : List (String × Nat)) (cum : ℚ) (ci : Nat),
      (mkSegments total entries cum ci).map ChartSegment.label
        = entries.map (fun p => getEstimateLabel p.1) := by
  intro entries
  induction entries with
  | nil => intro cum ci; simp [mkSegments]
  | cons p rest ih =>
      intro cum ci
      obtain ⟨est, c⟩ := p
      simp [mkSegments, ih]

/-! ## Example participants and segments for the C3 example -/

def exVoter5b : User :=
  { id := "v3", name := "Dee", estimate := some (EstVal.num 5),
    hasVoted := true, isAdmin := false }

def exVoterInfo : User :=
  { id := "v4", name := "Eli", estimate := some (EstVal.str "info"),
    hasVoted := true, isAdmin := false }

def exSeg5of3 : ChartSegment :=
  { label := "5", value := 2, percentage := 200/3, color := "#4CAF50", offset := 0,
    pathData := some (SegPath.arc chartCenterX chartCenterY chartRadius 0 (200/3) 1) }

def exSeg8of3 : ChartSegment :=
  { label := "8", value := 1, percentage := 100/3, color := "#2196F3", offset := 200/3,
    pathData := some (SegPath.arc chartCenterX chartCenterY chartRadius (200/3) 100 0) }

/-- C3 counterexample to the claimed insertion ordering: with votes cast
in the order 8 then 5, the first occurrence order of the labels is 8
before 5, but the code enumerates the counts object with integer-like
keys in ascending numeric order, yielding the wedge labels 5 before
8. -/
theorem claim_C3_counterexample :
    (generateChartData [exVoter8, exVoter]).map ChartSegment.label = ["5", "8"] ∧
    (generateChartData [exVoter8, exVoter]).map ChartSegment.label ≠ ["8", "5"] := by
  have h : (generateChartData [exVoter8, exVoter]).map ChartSegment.label
      = (objectEntries (countFold ((votingUsers [exVoter8, exVoter]).map userEstKey))).map
          (fun p => getEstimateLabel p.1) := by
    unfold generateChartData
    rw [mkSegments_map_label]
  rw [h]
  constructor
  · decide
  · decide

/-- C3 as amended: per-key counts equal the occurrence counts of the
voting keys; the wedge counts total the number of voting users; the
spec example with votes 5, 5, 8 yields counts 2 and 1, percentages
200/3 and 100/3 and offsets 0 and 200/3; and enumeration order is
integer-like labels ascending first, then the remaining labels in
insertion order. -/
theorem claim_C3 :
    (∀ (keys : List String) (k : String), countOf (countFold keys) k = keys.count k) ∧
    (∀ users : List User,
      ((generateChartData users).map ChartSegment.value).sum = (votingUsers users).length) ∧
    (generateChartData [exVoter, exVoter5b, exVoter8] = [exSeg5of3, exSeg8of3]) ∧
    ((generateChartData [exVoter8, exVoterInfo, exVoter]).map ChartSegment.label
      = ["5", "8", "❓ Need more info"]) := by
  refine ⟨?_, ?_, ?_, ?_⟩
  · intro keys k
    rw [countFold, countOf_foldl]
    simp [countOf]
  · intro users
    unfold generateChartData
    rw [mkSegments_map_value]
    have : ((objectEntries (countFold ((votingUsers users).map userEstKey))).map Prod.snd).sum
        = sumCounts (objectEntries (countFold ((votingUsers users).map userEstKey))) := rfl
    rw [this, sumCounts_objectEntries, sumCounts_countFold, List.length_map]
  · have h : objectEntries (countFold ((votingUsers [exVoter, exVoter5b, exVoter8]).map userEstKey))
        = [("5", 2), ("8", 1)] := by decide
    have hn : (((votingUsers [exVoter, exVoter5b, exVoter8]).length : Nat) : ℚ) = 3 := by
      norm_num [votingUsers, exVoter, exVoter5b, exVoter8, isVotingUser, estTruthy]
    unfold generateChartData
    rw [h, hn]
    simp only [mkSegments]
    have l5 : getEstimateLabel "5" = "5" := by decide
    have l8 : getEstimateLabel "8" = "8" := by decide
    norm_num [exSeg5of3, exSeg8of3, l5, l8, colors]
  · have h : (generateChartData [exVoter8, exVoterInfo, exVoter]).map ChartSegment.label
        = (objectEntries (countFold ((votingUsers [exVoter8, exVoterInfo, exVoter]).map
            userEstKey))).map (fun p => getEstimateLabel p.1) := by
      unfold generateChartData
      rw [mkSegments_map_label]
    rw [h]
    decide

/-! ## Phase flag claims (service state machine) -/

def exStory : Story := { title := "", description := "" }

def exRoomRevealed : Room :=
  { id := "r1", name := "Room", userCount := 0, adminName := "A",
    story := exStory, votingRevealed := true, estimationStarted := false,
    createdAt := 0, lastActivity := 0 }

def exResults : VotingResults :=
  { totalVotes := 0, estimates := [], averageEstimate := none,
    mostCommonEstimate := none, revealed := none }

/-- C2 counterexample: a room-state event carrying votingRevealed true
reaches a state with the revealed flag set while the in-progress flag is
still false, because the room-state handler never touches the
estimationStarted subject; so the claimed implications are not
invariants of the reachable states. -/
theorem claim_C2_counterexample :
    ¬ (∀ es : List InEvent,
        ((reach es).estimationStarted = true → (reach es).resultsRevealed = false) ∧
        ((reach es).resultsRevealed = true → (reach es).estimationStarted = true) ∧
        (∀ (users : List User) (results : VotingResults),
          (serviceStep (reach es) (InEvent.votingReset users results)).estimationStarted
            = false ∧
          (serviceStep (reach es) (InEvent.votingReset users results)).resultsRevealed
            = false)) := by
  intro h
  have h2 := (h [InEvent.roomState exRoomRevealed [] exResults]).2.1
  have hrev : (reach [InEvent.roomState exRoomRevealed [] exResults]).resultsRevealed
      = true := rfl
  have hstart := h2 hrev
  have hst : (reach [InEvent.roomState exRoomRevealed [] exResults]).estimationStarted
      = false := rfl
  rw [hstart] at hst
  exact Bool.noConfusion hst

/-- C2 as amended: a voting-reset event forces both phase flags false
and an estimation-started event sets in-progress true and revealed
false, from any service state; but the implications of the original
claim are not reachable-state invariants, as the counterexample
shows. -/
theorem claim_C2 (s : ServiceState) (users : List User) (results : VotingResults) :
    (serviceStep s (InEvent.votingReset users results)).estimationStarted = false ∧
    (serviceStep s (InEvent.votingReset users results)).resultsRevealed = false ∧
    (serviceStep s (InEvent.estimationStarted users results)).estimationStarted = true ∧
    (serviceStep s (InEvent.estimationStarted users results)).resultsRevealed = false :=
  ⟨rfl, rfl, rfl, rfl⟩

/-! ## Vote selection claims (component) -/

def exUser : User :=
  { id := "u1", name := "Ann", estimate := none, hasVoted := false, isAdmin := false }

def exCSReady : ComponentState :=
  { roomId := "r1", currentUser := some exUser, users := [exUser],
    selectedEstimate := none, estimationStarted := true, resultsRevealed := false,
    chartSegments := [], storySummary := "", isEditingStory := false,
    roomClosed := false, room := none }

/-- C4: while estimation is in progress and a current user exists,
clicking the selected value clears the local vote and sends the empty
string, clicking another value records it and sends its string form,
and from a state where the value is not selected two successive clicks
of the same value round-trip to a cleared vote. -/
theorem claim_C4 (point : EstVal) (cs : ComponentState) (u : User)
    (hstart : cs.estimationStarted = true) (huser : cs.currentUser = some u) :
    (cs.selectedEstimate = some point →
      (selectEstimate point cs).1.selectedEstimate = none ∧
      (selectEstimate point cs).1.currentUser
        = some { u with estimate := none, hasVoted := false } ∧
      (selectEstimate point cs).2 = [OutMsg.submitVote cs.roomId u.id ""]) ∧
    (cs.selectedEstimate ≠ some point →
      (selectEstimate point cs).1.selectedEstimate = some point ∧
      (selectEstimate point cs).1.currentUser
        = some { u with estimate := some point, hasVoted := true } ∧
      (selectEstimate point cs).2
        = [OutMsg.submitVote cs.roomId u.id (estValToString point)]) ∧
    (cs.selectedEstimate ≠ some point →
      (selectEstimate point (selectEstimate point cs).1).1.selectedEstimate = none ∧
      (selectEstimate point (selectEstimate point cs).1).2
        = [OutMsg.submitVote cs.roomId u.id ""]) := by
  refine ⟨?_, ?_, ?_⟩ <;> intro hsel <;>
    simp [selectEstimate, hstart, huser, hsel]

/-- Witness for C4: from the ready state, selecting 5 twice clears the
vote and the second emission carries the empty string. -/
theorem claim_C4_witness :
    (selectEstimate (EstVal.num 5)
      (selectEstimate (EstVal.num 5) exCSReady).1).1.selectedEstimate = none ∧
    (selectEstimate (EstVal.num 5) (selectEstimate (EstVal.num 5) exCSReady).1).2
      = [OutMsg.submitVote "r1" "u1" ""] := by
  have h := (claim_C4 (EstVal.num 5) exCSReady exUser rfl rfl).2.2 (by decide)
  exact ⟨h.1, h.2⟩

/-- C5: with estimation not started, selectEstimate changes nothing and
emits nothing. -/
theorem claim_C5 (point : EstVal) (cs : ComponentState)
    (h : cs.estimationStarted = false) :
    selectEstimate point cs = (cs, []) := by
  simp [selectEstimate, h]

def exCSIdle : ComponentState :=
  { exCSReady with estimationStarted := false }

/-- Witness for C5 at the idle state. -/
theorem claim_C5_witness :
    selectEstimate (EstVal.num 5) exCSIdle = (exCSIdle, []) :=
  claim_C5 (EstVal.num 5) exCSIdle rfl

/-! ## Votes-revealed event and the local selection (component) -/

def exCSRevealPending : ComponentState :=
  { exCSReady with selectedEstimate := some (EstVal.num 5) }

/-- C6 counterexample: a votes-revealed event whose payload carries
revealed = false does not clear the locally selected estimate, because
the component only clears it inside the `if (revealed)` branch. -/
theorem claim_C6_counterexample :
    (onVotesRevealedEvent false [] none exCSRevealPending).selectedEstimate
      = some (EstVal.num 5) ∧
    (onVotesRevealedEvent false [] none exCSRevealPending).selectedEstimate ≠ none := by
  have h : (onVotesRevealedEvent false [] none exCSRevealPending).selectedEstimate
      = some (EstVal.num 5) := rfl
  refine ⟨h, ?_⟩
  rw [h]
  exact fun hc => Option.noConfusion hc

/-- C6 as amended: processing a votes-revealed event clears the locally
selected estimate exactly when the payload marks the votes as revealed;
with revealed false the selection is left unchanged. -/
theorem claim_C6 (votes : List User) (summary : Option RevealSummary)
    (cs : ComponentState) :
    (onVotesRevealedEvent true votes summary cs).selectedEstimate = none ∧
    (onVotesRevealedEvent false votes summary cs).selectedEstimate
      = cs.selectedEstimate := by
  constructor <;> simp [onVotesRevealedEvent]

/-! ## Close room (component) -/

/-- C8: once the close is confirmed and a current user exists, the
persisted identity is removed and navigation home happens whether or not
the backend leave-room request succeeds; on failure a warning dialog is
added but the exit effects are still present. -/
theorem claim_C8 (leaveSucceeds : Bool) (cs : ComponentState) (u : User)
    (h : cs.currentUser = some u) :
    Effect.removeStoredUser ("room_" ++ cs.roomId ++ "_user")
      ∈ closeRoom true leaveSucceeds cs ∧
    Effect.navigate "/" ∈ closeRoom true leaveSucceeds cs ∧
    (leaveSucceeds = false →
      Effect.warnDialog "Warning" ∈ closeRoom true leaveSucceeds cs) := by
  cases leaveSucceeds <;> simp [closeRoom, h]

/-- Witness for C8 on the failing branch. -/
theorem claim_C8_witness :
    Effect.removeStoredUser "room_r1_user" ∈ closeRoom true false exCSReady ∧
    Effect.navigate "/" ∈ closeRoom true false exCSReady ∧
    Effect.warnDialog "Warning" ∈ closeRoom true false exCSReady := by
  have h := claim_C8 false exCSReady exUser rfl
  exact ⟨h.1, h.2.1, h.2.2 rfl⟩

/-! ## Story update frame (service) -/

def exRoomBase : Room :=
  { id := "r2", name := "Poker", userCount := 2, adminName := "A",
    story := exStory, votingRevealed := false, estimationStarted := true,
    createdAt := 3, lastActivity := 4 }

def exServiceState : ServiceState :=
  { users := [exUser], room := some exRoomBase, votingResults := none,
    estimationStarted := true, resultsRevealed := false }

def exStoryNew : Story := { title := "New story", description := "d" }

/-- C9: a story-updated event replaces only the story field of the room
snapshot; every other room field and every other state slice is
unchanged. -/
theorem claim_C9 (s : ServiceState) (st : Story) (rm : Room) (r : Room)
    (h : s.room = some r) :
    ∃ r', (serviceStep s (InEvent.storyUpdated st rm)).room = some r' ∧
      r'.story = st ∧ r'.id = r.id ∧ r'.name = r.name ∧
      r'.userCount = r.userCount ∧ r'.adminName = r.adminName ∧
      r'.votingRevealed = r.votingRevealed ∧
      r'.estimationStarted = r.estimationStarted ∧
      r'.createdAt = r.createdAt ∧ r'.lastActivity = r.lastActivity ∧
      (serviceStep s (InEvent.storyUpdated st rm)).users = s.users ∧
      (serviceStep s (InEvent.storyUpdated st rm)).votingResults = s.votingResults ∧
      (serviceStep s (InEvent.storyUpdated st rm)).estimationStarted
        = s.estimationStarted ∧
      (serviceStep s (InEvent.storyUpdated st rm)).resultsRevealed
        = s.resultsRevealed := by
  refine ⟨{ r with story := st }, ?_⟩
  simp [serviceStep, h]

/-- Witness for C9 at a concrete service state. -/
theorem claim_C9_witness :
    ∃ r', (serviceStep exServiceState
        (InEvent.storyUpdated exStoryNew exRoomBase)).room = some r' ∧
      r'.story = exStoryNew ∧ r'.id = exRoomBase.id ∧ r'.name = exRoomBase.name ∧
      r'.userCount = exRoomBase.userCount ∧ r'.adminName = exRoomBase.adminName ∧
      r'.votingRevealed = exRoomBase.votingRevealed ∧
      r'.estimationStarted = exRoomBase.estimationStarted ∧
      r'.createdAt = exRoomBase.createdAt ∧ r'.lastActivity = exRoomBase.lastActivity ∧
      (serviceStep exServiceState (InEvent.storyUpdated exStoryNew exRoomBase)).users
        = exServiceState.users ∧
      (serviceStep exServiceState
        (InEvent.storyUpdated exStoryNew exRoomBase)).votingResults
        = exServiceState.votingResults ∧
      (serviceStep exServiceState
        (InEvent.storyUpdated exStoryNew exRoomBase)).estimationStarted
        = exServiceState.estimationStarted ∧
      (serviceStep exServiceState
        (InEvent.storyUpdated exStoryNew exRoomBase)).resultsRevealed
        = exServiceState.resultsRevealed :=
  claim_C9 exServiceState exStoryNew exRoomBase exRoomBase rfl

end StoryPoker
